import Mathlib

/-!
Verification development for the homey_proxmox repository.

The repository is a Homey app that polls a Proxmox cluster.  The monitoring
logic lives in `drivers/proxmox/device.js` (the latest revision, the one that
defines `updateIOMetrics` and `checkAndTriggerFlowCards`), the flow cards and
the restart action in `drivers/proxmox/driver.js`, and the cluster client in
`lib/proxmox-api.js`.  The development below is a shallow embedding of those
functions: JavaScript numbers are modelled as rationals, absent object fields
as `Option`, capability writes as updates of an explicit record, and emitted
flow-card triggers as a list of events.  `hasCapability` is modelled as `true`
for every capability registered in `onInit` (onInit adds them all), and the
driver with its trigger cards is modelled as present (the driver registers
them in its own `onInit`).
-/

namespace HomeyProxmox

/-- JavaScript `Math.round`: rounds to the nearest integer, halves toward
positive infinity, i.e. `⌊x + 1/2⌋`. -/
def jsRound (x : ℚ) : ℤ := Int.floor (x + 1/2)

/-- `roundToOneDecimal` from device.js: `Math.round(value * 10) / 10`. -/
def roundToOneDecimal (value : ℚ) : ℚ := (jsRound (value * 10) : ℚ) / 10

/-- `roundToTwoDecimals` from device.js: `Math.round(value * 100) / 100`. -/
def roundToTwoDecimals (value : ℚ) : ℚ := (jsRound (value * 100) : ℚ) / 100

/-- `calculateRate` from device.js.  `previousValue` is `none` when the stored
previous counter is `null`/`undefined`. -/
def calculateRate (currentValue : ℚ) (previousValue : Option ℚ)
    (intervalSeconds : ℚ) : ℚ :=
  match previousValue with
  | none => 0
  | some prev =>
    let delta := currentValue - prev
    if delta < 0 then 0
    else roundToTwoDecimals (delta / intervalSeconds / (1024 * 1024))

/-- Flow-card trigger events emitted during a poll cycle, one constructor per
device trigger card registered in driver.js. -/
inductive Event where
  | started
  | stopped
  | cpuAbove
  | memoryAbove
  | networkAbove
  | diskIOAbove
  | diskSpaceLow
  | deviceUnreachable
deriving DecidableEq

/-- One entry of `this.thresholdTracking` in device.js: the `above` flag plus
the stored `threshold` field set in `onInit`. -/
structure TrackState where
  above : Bool
  threshold : ℚ
deriving DecidableEq

/-- CPU branch of `checkAndTriggerFlowCards` (device.js): fires when
`cpuPercent > 90 && !above`; resets the flag when `cpuPercent <= 85`.
Returns the new tracking state and whether the trigger fired. -/
def cpuStep (s : TrackState) (cpuPercent : ℚ) : TrackState × Bool :=
  if cpuPercent > 90 ∧ s.above = false then ({ s with above := true }, true)
  else if cpuPercent ≤ 85 then ({ s with above := false }, false)
  else (s, false)

/-- Memory branch of `checkAndTriggerFlowCards`: `memPercent > 90` to fire,
`memPercent <= 85` to reset. -/
def memoryStep (s : TrackState) (memPercent : ℚ) : TrackState × Bool :=
  if memPercent > 90 ∧ s.above = false then ({ s with above := true }, true)
  else if memPercent ≤ 85 then ({ s with above := false }, false)
  else (s, false)

/-- Network branch of `checkAndTriggerFlowCards`: `totalNetwork > 10` to fire,
`totalNetwork <= 8` to reset. -/
def networkStep (s : TrackState) (totalNetwork : ℚ) : TrackState × Bool :=
  if totalNetwork > 10 ∧ s.above = false then ({ s with above := true }, true)
  else if totalNetwork ≤ 8 then ({ s with above := false }, false)
  else (s, false)

/-- Disk I/O branch of `checkAndTriggerFlowCards`: `totalDiskIO > 50` to fire,
`totalDiskIO <= 40` to reset. -/
def diskIOStep (s : TrackState) (diskIOTotal : ℚ) : TrackState × Bool :=
  if diskIOTotal > 50 ∧ s.above = false then ({ s with above := true }, true)
  else if diskIOTotal ≤ 40 then ({ s with above := false }, false)
  else (s, false)

/-- Runs a tracker step over a list of metric values; returns, per input, the
pair (event fired, `above` flag after the step). -/
def trackRun (step : TrackState → ℚ → TrackState × Bool) :
    TrackState → List ℚ → List (Bool × Bool)
  | _, [] => []
  | s, v :: rest =>
    ((step s v).2, (step s v).1.above) :: trackRun step (step s v).1 rest

/-- `this.thresholdTracking` in device.js. -/
structure Tracking where
  cpu : TrackState
  memory : TrackState
  network : TrackState
  diskIOState : TrackState
deriving DecidableEq

/-- The capability values the device writes through `setCapabilityValue`. -/
structure Caps where
  onoff : Bool
  measureCpu : ℚ
  measureMemory : ℚ
  measureDisk : ℚ
  sensorUptime : ℚ
  measureNetworkIn : ℚ
  measureNetworkOut : ℚ
  measureDiskRead : ℚ
  measureDiskWrite : ℚ
  alarmHeat : Bool
  alarmConnectivity : Bool
  alarmGeneric : Bool
deriving DecidableEq

/-- `this.previousCounters` in device.js: the four cumulative counters
(`null` before the first consumed sample) plus the timestamp in ms. -/
structure Counters where
  netin : Option ℚ
  netout : Option ℚ
  diskread : Option ℚ
  diskwrite : Option ℚ
  timestamp : ℚ
deriving DecidableEq

/-- `status.rootfs` for a node: `used` and `total` fields, each possibly
absent. -/
structure Rootfs where
  used : Option ℚ := none
  total : Option ℚ := none
deriving DecidableEq

/-- The fields of the status object fetched from the Proxmox API that
device.js consumes; `none` models an absent (`undefined`) field.
`statusField` is the `status.status` string of a VM/LXC. -/
structure Status where
  uptime : Option ℚ := none
  statusField : Option String := none
  cpu : Option ℚ := none
  memory : Option ℚ := none
  mem : Option ℚ := none
  maxmem : Option ℚ := none
  disk : Option ℚ := none
  maxdisk : Option ℚ := none
  rootfs : Option Rootfs := none
  netin : Option ℚ := none
  netout : Option ℚ := none
  diskread : Option ℚ := none
  diskwrite : Option ℚ := none
deriving DecidableEq

/-- The mutable per-device state touched by a poll cycle. -/
structure DeviceState where
  caps : Caps
  counters : Counters
  prevRunning : Option Bool
  tracking : Tracking
deriving DecidableEq

/-- `updateAlarms` from device.js: `alarm_heat` is true when CPU or memory
percent exceeds 90, `alarm_connectivity` is true when offline. -/
def updateAlarms (caps : Caps) (cpuPercent memPercent : ℚ) (isOnline : Bool) :
    Caps :=
  { caps with
    alarmHeat := decide (cpuPercent > 90) || decide (memPercent > 90)
    alarmConnectivity := !isOnline }

/-- `updateIOMetrics` from device.js: computes the four I/O rates and advances
the stored previous counters, but only when the elapsed interval (in seconds)
since `previousCounters.timestamp` is strictly positive; each counter is only
consumed when its status field is present. -/
def updateIOMetrics (caps : Caps) (counters : Counters) (status : Status)
    (now : ℚ) : Caps × Counters :=
  let intervalSeconds := (now - counters.timestamp) / 1000
  if intervalSeconds > 0 then
    let r1 : Caps × Counters :=
      match status.netin with
      | some v =>
        ({ caps with measureNetworkIn := calculateRate v counters.netin intervalSeconds },
         { counters with netin := some v })
      | none => (caps, counters)
    let r2 : Caps × Counters :=
      match status.netout with
      | some v =>
        ({ r1.1 with measureNetworkOut := calculateRate v r1.2.netout intervalSeconds },
         { r1.2 with netout := some v })
      | none => r1
    let r3 : Caps × Counters :=
      match status.diskread with
      | some v =>
        ({ r2.1 with measureDiskRead := calculateRate v r2.2.diskread intervalSeconds },
         { r2.2 with diskread := some v })
      | none => r2
    let r4 : Caps × Counters :=
      match status.diskwrite with
      | some v =>
        ({ r3.1 with measureDiskWrite := calculateRate v r3.2.diskwrite intervalSeconds },
         { r3.2 with diskwrite := some v })
      | none => r3
    (r4.1, { r4.2 with timestamp := now })
  else (caps, counters)

/-- The started/stopped edge branch of `checkAndTriggerFlowCards`: an event
fires only when `previousState.isRunning` is not `null` and differs from the
current running flag. -/
def runStateEvents (prevRunning : Option Bool) (isRunning : Bool) :
    List Event :=
  match prevRunning with
  | none => []
  | some p =>
    if p ≠ isRunning then
      (if isRunning then [Event.started] else [Event.stopped])
    else []

/-- `checkAndTriggerFlowCards` from device.js: emits run-state edge events,
then evaluates the four hard-coded hysteresis trackers (CPU, memory, total
network from the two network capabilities, total disk I/O from the two disk
capabilities).  Returns the new `previousState.isRunning`, the new tracking
record, and the emitted events in program order. -/
def checkAndTriggerFlowCards (prevRunning : Option Bool) (tracking : Tracking)
    (caps : Caps) (isRunning : Bool) (cpuPercent memPercent : ℚ) :
    Option Bool × Tracking × List Event :=
  let cpuR := cpuStep tracking.cpu cpuPercent
  let memR := memoryStep tracking.memory memPercent
  let networkTotal := caps.measureNetworkIn + caps.measureNetworkOut
  let netR := networkStep tracking.network networkTotal
  let diskIOTotal := caps.measureDiskRead + caps.measureDiskWrite
  let dioR := diskIOStep tracking.diskIOState diskIOTotal
  (some isRunning,
   ⟨cpuR.1, memR.1, netR.1, dioR.1⟩,
   runStateEvents prevRunning isRunning
     ++ (if cpuR.2 then [Event.cpuAbove] else [])
     ++ (if memR.2 then [Event.memoryAbove] else [])
     ++ (if netR.2 then [Event.networkAbove] else [])
     ++ (if dioR.2 then [Event.diskIOAbove] else []))

/-- Device kinds handled by `updateStatus` in device.js. -/
inductive DeviceKind where
  | node
  | lxc
  | vm
deriving DecidableEq

/-- The VM/LXC branch of `updateStatus` (device.js), given a successfully
fetched status object.  `isRunning` is `status.status === 'running'`; when
running, each metric capability is written only when its source fields are
present (and `maxmem`/`maxdisk` positive), `cpuPercent`/`memPercent` stay `0`
for an absent field, and `updateIOMetrics` runs; when stopped, all eight
metric capabilities are set to `0` and no I/O update runs.  Alarms are
updated, then `checkAndTriggerFlowCards` runs. -/
def updateStatusVMOk (status : Status) (now : ℚ) (st : DeviceState) :
    DeviceState × List Event :=
  let isRunning : Bool := decide (status.statusField = some "running")
  let c0 := { st.caps with onoff := isRunning }
  if isRunning then
    let cpuR : ℚ × Caps :=
      match status.cpu with
      | some c =>
        (roundToOneDecimal (c * 100),
         { c0 with measureCpu := roundToOneDecimal (c * 100) })
      | none => (0, c0)
    let memR : ℚ × Caps :=
      match status.mem, status.maxmem with
      | some m, some mx =>
        if mx > 0 then
          (roundToOneDecimal (m / mx * 100),
           { cpuR.2 with measureMemory := roundToOneDecimal (m / mx * 100) })
        else (0, cpuR.2)
      | _, _ => (0, cpuR.2)
    let c2 : Caps :=
      match status.disk, status.maxdisk with
      | some d, some mx =>
        if mx > 0 then
          { memR.2 with measureDisk := roundToOneDecimal (d / mx * 100) }
        else memR.2
      | _, _ => memR.2
    let c3 : Caps :=
      match status.uptime with
      | some u => { c2 with sensorUptime := roundToOneDecimal (u / 3600) }
      | none => c2
    let io := updateIOMetrics c3 st.counters status now
    let c4 := updateAlarms io.1 cpuR.1 memR.1 isRunning
    let flow := checkAndTriggerFlowCards st.prevRunning st.tracking c4 isRunning cpuR.1 memR.1
    (⟨c4, io.2, flow.1, flow.2.1⟩, flow.2.2)
  else
    let c1 := { c0 with
      measureCpu := 0, measureMemory := 0, measureDisk := 0, sensorUptime := 0,
      measureNetworkIn := 0, measureNetworkOut := 0,
      measureDiskRead := 0, measureDiskWrite := 0 }
    let c2 := updateAlarms c1 0 0 isRunning
    let flow := checkAndTriggerFlowCards st.prevRunning st.tracking c2 isRunning 0 0
    (⟨c2, st.counters, flow.1, flow.2.1⟩, flow.2.2)

/-- The node branch of `updateStatus` (device.js).  `isOnline` is
`status.uptime > 0` (false for an absent field); when online, metrics use
`status.memory` and `status.rootfs` (with `used || 0` and `total || 1`
fallbacks) and `updateIOMetrics` runs; when offline, only the four I/O rate
capabilities are reset to `0`. -/
def updateStatusNodeOk (status : Status) (now : ℚ) (st : DeviceState) :
    DeviceState × List Event :=
  let isOnline : Bool :=
    match status.uptime with
    | some u => decide (u > 0)
    | none => false
  let c0 := { st.caps with onoff := isOnline }
  if isOnline then
    let cpuR : ℚ × Caps :=
      match status.cpu with
      | some c =>
        (roundToOneDecimal (c * 100),
         { c0 with measureCpu := roundToOneDecimal (c * 100) })
      | none => (0, c0)
    let memR : ℚ × Caps :=
      match status.memory, status.maxmem with
      | some m, some mx =>
        if mx > 0 then
          (roundToOneDecimal (m / mx * 100),
           { cpuR.2 with measureMemory := roundToOneDecimal (m / mx * 100) })
        else (0, cpuR.2)
      | _, _ => (0, cpuR.2)
    let c2 : Caps :=
      match status.rootfs with
      | some r =>
        let diskUsed := match r.used with | some u => u | none => 0
        let diskTotal :=
          match r.total with
          | some t => if t = 0 then 1 else t
          | none => 1
        { memR.2 with measureDisk := roundToOneDecimal (diskUsed / diskTotal * 100) }
      | none => memR.2
    let c3 : Caps :=
      match status.uptime with
      | some u => { c2 with sensorUptime := roundToOneDecimal (u / 3600) }
      | none => c2
    let io := updateIOMetrics c3 st.counters status now
    let c4 := updateAlarms io.1 cpuR.1 memR.1 isOnline
    let flow := checkAndTriggerFlowCards st.prevRunning st.tracking c4 isOnline cpuR.1 memR.1
    (⟨c4, io.2, flow.1, flow.2.1⟩, flow.2.2)
  else
    let c1 := { c0 with
      measureNetworkIn := 0, measureNetworkOut := 0,
      measureDiskRead := 0, measureDiskWrite := 0 }
    let c2 := updateAlarms c1 0 0 isOnline
    let flow := checkAndTriggerFlowCards st.prevRunning st.tracking c2 isOnline 0 0
    (⟨c2, st.counters, flow.1, flow.2.1⟩, flow.2.2)

/-- `updateStatus` from device.js: on a fetch error the catch block sets
`alarm_generic` and `alarm_connectivity` to true and fires the
`device_unreachable` trigger, touching nothing else; on success it dispatches
on the device kind. -/
def updateStatus (kind : DeviceKind) (fetch : Except Unit Status) (now : ℚ)
    (st : DeviceState) : DeviceState × List Event :=
  match fetch with
  | Except.error _ =>
    ({ st with caps := { st.caps with alarmGeneric := true, alarmConnectivity := true } },
     [Event.deviceUnreachable])
  | Except.ok status =>
    match kind with
    | DeviceKind.node => updateStatusNodeOk status now st
    | DeviceKind.lxc => updateStatusVMOk status now st
    | DeviceKind.vm => updateStatusVMOk status now st

/-- Runs a list of poll cycles (fetch result and `Date.now()` per cycle),
concatenating the emitted events. -/
def runPolls (kind : DeviceKind) :
    DeviceState → List (Except Unit Status × ℚ) → DeviceState × List Event
  | st, [] => (st, [])
  | st, (f, t) :: rest =>
    let r := updateStatus kind f t st
    let r2 := runPolls kind r.1 rest
    (r2.1, r.2 ++ r2.2)

/-- The tracking record as set up by `onInit` in device.js. -/
def initTracking : Tracking :=
  ⟨⟨false, 90⟩, ⟨false, 90⟩, ⟨false, 10⟩, ⟨false, 50⟩⟩

/-- A capability record with everything zeroed / cleared. -/
def zeroCaps : Caps :=
  ⟨false, 0, 0, 0, 0, 0, 0, 0, 0, false, false, false⟩

/-- The device state right after `onInit` (counters `null`, timestamp set to
the current time, `previousState.isRunning` `null`). -/
def initDevice (now : ℚ) : DeviceState :=
  ⟨zeroCaps, ⟨none, none, none, none, now⟩, none, initTracking⟩

/-- Equality of API-call results is decidable. -/
instance exceptDecEq {ε α : Type} [DecidableEq ε] [DecidableEq α] :
    DecidableEq (Except ε α) := fun a b =>
  match a, b with
  | Except.ok x, Except.ok y =>
    if h : x = y then isTrue (by rw [h]) else isFalse (by simp [h])
  | Except.ok _, Except.error _ => isFalse (by simp)
  | Except.error _, Except.ok _ => isFalse (by simp)
  | Except.error x, Except.error y =>
    if h : x = y then isTrue (by rw [h]) else isFalse (by simp [h])

/-- One cluster node as seen by `findVMNode` in proxmox-api.js: its name and
the results of `getLXCs` / `getVMs` against it (each may fail when the node is
unreachable). -/
structure ClusterNode where
  name : String
  lxcs : Except String (List Nat)
  vms : Except String (List Nat)
deriving DecidableEq

/-- The node loop of `findVMNode` (proxmox-api.js): for each node, consult the
listing matching the entity type; an error while listing is caught and treated
as "not found on this node" and the loop continues; a node whose listing
contains the vmid is returned. -/
def findVMNodeList (vmid : Nat) (entityType : String) :
    List ClusterNode → Option String
  | [] => none
  | n :: rest =>
    if entityType = "lxc" then
      match n.lxcs with
      | Except.ok ls =>
        if ls.contains vmid then some n.name
        else findVMNodeList vmid entityType rest
      | Except.error _ => findVMNodeList vmid entityType rest
    else if entityType = "vm" then
      match n.vms with
      | Except.ok vs =>
        if vs.contains vmid then some n.name
        else findVMNodeList vmid entityType rest
      | Except.error _ => findVMNodeList vmid entityType rest
    else findVMNodeList vmid entityType rest

/-- `findVMNode` from proxmox-api.js: fetches the node list (returning `null`
if even that fails) and searches it. -/
def findVMNode (vmid : Nat) (entityType : String)
    (nodesFetch : Except String (List ClusterNode)) : Option String :=
  match nodesFetch with
  | Except.error _ => none
  | Except.ok nodes => findVMNodeList vmid entityType nodes

/-- Outcome of the `restart_vm` flow action (driver.js): the inner
try/catch's result (the outer handler merely wraps the message), the node
names restarted against in order, and the recorded node after the action. -/
structure RestartOutcome where
  result : Except String Unit
  attempts : List String
  recordedNode : String
deriving DecidableEq

/-- The inner try/catch of the `restart_vm` action (driver.js), identical for
the lxc and vm branches up to which API call is used (abstracted as
`restart`): try the recorded node; on failure run `findVMNode`; if it returns
a different node, update the recorded node and retry exactly once against it;
otherwise re-raise the original error. -/
def restartAction (entityType recordedNode : String) (vmid : Nat)
    (restart : String → Except String Unit)
    (nodesFetch : Except String (List ClusterNode)) : RestartOutcome :=
  match restart recordedNode with
  | Except.ok _ => ⟨Except.ok (), [recordedNode], recordedNode⟩
  | Except.error e =>
    match findVMNode vmid entityType nodesFetch with
    | some newNode =>
      if newNode ≠ recordedNode then
        ⟨restart newNode, [recordedNode, newNode], newNode⟩
      else ⟨Except.error e, [recordedNode], recordedNode⟩
    | none => ⟨Except.error e, [recordedNode], recordedNode⟩

/-- Run listener of the `cpu_above_threshold` trigger card (driver.js):
passes when `state.cpu_usage > args.threshold`. -/
def cpuAboveThresholdRunListener (argsThreshold cpuUsage : ℚ) : Bool :=
  decide (cpuUsage > argsThreshold)

/-- Run listener of the `memory_above_threshold` trigger card (driver.js). -/
def memoryAboveThresholdRunListener (argsThreshold memoryUsage : ℚ) : Bool :=
  decide (memoryUsage > argsThreshold)

/-- Run listener of the `high_network_traffic` trigger card (driver.js). -/
def highNetworkTrafficRunListener (argsThreshold networkIn networkOut : ℚ) : Bool :=
  decide (networkIn + networkOut > argsThreshold)

/-- Run listener of the `high_disk_io` trigger card (driver.js). -/
def highDiskActivityRunListener (argsThreshold diskRead diskWrite : ℚ) : Bool :=
  decide (diskRead + diskWrite > argsThreshold)

/-- Run listener of the `disk_space_low` trigger card (driver.js): passes
when `state.disk_free < args.threshold`. -/
def diskSpaceLowRunListener (argsThreshold diskFree : ℚ) : Bool :=
  decide (diskFree < argsThreshold)

/-- Common shape of the four tracker branches, abstracted over the two
hard-coded bounds; `cpuStep = hysteresisStep 90 85` and so on, definitionally. -/
def hysteresisStep (hi lo : ℚ) (s : TrackState) (v : ℚ) : TrackState × Bool :=
  if v > hi ∧ s.above = false then ({ s with above := true }, true)
  else if v ≤ lo then ({ s with above := false }, false)
  else (s, false)

/-- Whether an event is a run-state (started/stopped) edge event. -/
def isRunEvent : Event → Bool
  | Event.started => true
  | Event.stopped => true
  | _ => false

/-- A capability record holding arbitrary non-zero previous readings, used to
exhibit frame behaviour on concrete inputs. -/
def staleCaps : Caps :=
  { zeroCaps with
    measureCpu := 55, measureMemory := 44, measureDisk := 33, sensorUptime := 22,
    measureNetworkIn := 11, measureNetworkOut := 12,
    measureDiskRead := 13, measureDiskWrite := 14 }

/-- A device state with stale readings and consumed counters. -/
def staleState : DeviceState :=
  ⟨staleCaps, ⟨some 1, some 2, some 3, some 4, 0⟩, some true, initTracking⟩

/-- A VM status reporting a non-running state. -/
def vmStoppedStatus : Status := { statusField := some "stopped" }

/-- A node status reporting zero uptime. -/
def nodeOfflineStatus : Status := { uptime := some 0 }

/-- A running VM status whose cpu and mem fields are absent. -/
def vmRunningNoMetrics : Status := { statusField := some "running" }

/-- A device state where the heat alarm is raised and the CPU tracker is in
the Above state, with a high stale CPU reading. -/
def hotState : DeviceState :=
  ⟨{ staleCaps with measureCpu := 95, alarmHeat := true },
   ⟨some 1, some 2, some 3, some 4, 0⟩, some true,
   ⟨⟨true, 90⟩, ⟨true, 90⟩, ⟨false, 10⟩, ⟨false, 50⟩⟩⟩

/-- A running VM status whose disk usage leaves the given free-space percent
(out of a 100-unit disk). -/
def freeSpaceStatus (freePercent : ℚ) : Status :=
  { statusField := some "running", disk := some (100 - freePercent),
    maxdisk := some 100 }

/-- Four poll cycles whose free-space percents are 30, 18, 22 and 26. -/
def freeSpacePolls : List (Except Unit Status × ℚ) :=
  [(Except.ok (freeSpaceStatus 30), 30000), (Except.ok (freeSpaceStatus 18), 60000),
   (Except.ok (freeSpaceStatus 22), 90000), (Except.ok (freeSpaceStatus 26), 120000)]

/-- A restart primitive that succeeds only against node pve2. -/
def pveRestart : String → Except String Unit :=
  fun node => if node = "pve2" then Except.ok () else Except.error "connection refused"

/-- A two-node cluster where VM 100 lives on pve2 (migrated away from
pve1). -/
def pveClusterMigrated : List ClusterNode :=
  [⟨"pve1", Except.ok [], Except.ok []⟩,
   ⟨"pve2", Except.ok [100], Except.ok [100]⟩]

/-- A two-node cluster where VM 100 still lives on pve1 and pve2 is
unreachable. -/
def pveClusterSame : List ClusterNode :=
  [⟨"pve1", Except.ok [100], Except.ok [100]⟩,
   ⟨"pve2", Except.error "timeout", Except.error "timeout"⟩]

theorem cpuStep_eq_hysteresis (s : TrackState) (v : ℚ) :
    cpuStep s v = hysteresisStep 90 85 s v := rfl

theorem memoryStep_eq_hysteresis (s : TrackState) (v : ℚ) :
    memoryStep s v = hysteresisStep 90 85 s v := rfl

theorem networkStep_eq_hysteresis (s : TrackState) (v : ℚ) :
    networkStep s v = hysteresisStep 10 8 s v := rfl

theorem diskIOStep_eq_hysteresis (s : TrackState) (v : ℚ) :
    diskIOStep s v = hysteresisStep 50 40 s v := rfl

theorem hysteresisStep_snd (hi lo : ℚ) (hlo : lo < hi) (s : TrackState)
    (v : ℚ) : (hysteresisStep hi lo s v).2 = (decide (v > hi) && !s.above) := by
  unfold hysteresisStep
  by_cases h1 : v > hi ∧ s.above = false
  · rw [if_pos h1]
    simp [h1.1, h1.2]
  · rw [if_neg h1]
    by_cases h2 : v ≤ lo
    · rw [if_pos h2]
      have h3 : ¬ v > hi := not_lt.2 (le_of_lt (lt_of_le_of_lt h2 hlo))
      simp [h3]
    · rw [if_neg h2]
      by_cases h3 : v > hi
      · have ha : s.above = true := by
          cases hb : s.above
          · exact absurd ⟨h3, hb⟩ h1
          · rfl
        simp [ha]
      · simp [h3]

theorem hysteresisStep_above (hi lo : ℚ) (s : TrackState) (v : ℚ) :
    (hysteresisStep hi lo s v).1.above =
      (if v > hi ∧ s.above = false then true
       else if v ≤ lo then false else s.above) := by
  unfold hysteresisStep
  split_ifs <;> rfl

/-- Claim C1: for the per-entity CPU (resp. memory) threshold tracker with
trigger threshold 90, a crossed-above event fires exactly when the value
strictly exceeds 90 while the `above` flag is false; while the flag stays true
no further event fires; the flag returns to false exactly when the value is at
or below 85; and on the sequence [85, 92, 88, 84] from the initial Below state
exactly one event fires (at 92) and `above` becomes false only at 84, not
at 88. -/
theorem C1_threshold_hysteresis (s : TrackState) (v : ℚ) :
    ((cpuStep s v).2 = true ↔ (v > 90 ∧ s.above = false)) ∧
    ((cpuStep s v).1.above =
      if v > 90 ∧ s.above = false then true
      else if v ≤ 85 then false else s.above) ∧
    ((memoryStep s v).2 = true ↔ (v > 90 ∧ s.above = false)) ∧
    ((memoryStep s v).1.above =
      if v > 90 ∧ s.above = false then true
      else if v ≤ 85 then false else s.above) ∧
    (trackRun cpuStep ⟨false, 90⟩ [85, 92, 88, 84]
      = [(false, false), (true, true), (false, true), (false, false)]) ∧
    (trackRun memoryStep ⟨false, 90⟩ [85, 92, 88, 84]
      = [(false, false), (true, true), (false, true), (false, false)]) := by
  refine ⟨?_, ?_, ?_, ?_, by decide, by decide⟩
  · rw [cpuStep_eq_hysteresis, hysteresisStep_snd 90 85 (by norm_num)]
    simp
  · rw [cpuStep_eq_hysteresis, hysteresisStep_above]
  · rw [memoryStep_eq_hysteresis, hysteresisStep_snd 90 85 (by norm_num)]
    simp
  · rw [memoryStep_eq_hysteresis, hysteresisStep_above]

/-- Claim C2: with a positive interval, `calculateRate` returns 0 when the
previous counter is unset, 0 when the counter decreased, and otherwise the
delta divided by the interval and by 1048576, rounded to 2 decimals. -/
theorem C2_calculateRate_spec (cur p ival : ℚ) (h : 0 < ival) :
    calculateRate cur none ival = 0 ∧
    (cur - p < 0 → calculateRate cur (some p) ival = 0) ∧
    (0 ≤ cur - p →
      calculateRate cur (some p) ival
        = roundToTwoDecimals ((cur - p) / ival / 1048576)) := by
  refine ⟨rfl, fun hneg => ?_, fun hpos => ?_⟩
  · simp [calculateRate, hneg]
  · simp only [calculateRate, not_lt.2 hpos, if_false, if_neg (not_lt.2 hpos)]
    norm_num

theorem C2_calculateRate_spec_witness :
    ((0:ℚ) < 2 ∧
      calculateRate 3145728 (some 1048576) 2
        = roundToTwoDecimals ((3145728 - 1048576) / 2 / 1048576)) ∧
    calculateRate 1048576 (some 3145728) 2 = 0 :=
  ⟨⟨by norm_num,
    (C2_calculateRate_spec 3145728 1048576 2 (by norm_num)).2.2 (by norm_num)⟩,
   (C2_calculateRate_spec 1048576 3145728 2 (by norm_num)).2.1 (by norm_num)⟩

/-- Claim C8: when the elapsed interval since the stored timestamp is zero or
negative, `updateIOMetrics` computes and writes nothing and leaves all four
stored counters and the timestamp unchanged (in particular no division by the
interval is performed). -/
theorem C8_io_update_skipped (caps : Caps) (counters : Counters)
    (status : Status) (now : ℚ)
    (h : (now - counters.timestamp) / 1000 ≤ 0) :
    updateIOMetrics caps counters status now = (caps, counters) := by
  simp only [updateIOMetrics]
  rw [if_neg (not_lt.2 h)]

theorem C8_io_update_skipped_witness :
    ((5:ℚ) - 5) / 1000 ≤ 0 ∧
    updateIOMetrics zeroCaps ⟨some 1, none, none, none, 5⟩
      { netin := some 99 } 5 = (zeroCaps, ⟨some 1, none, none, none, 5⟩) :=
  ⟨by norm_num,
   C8_io_update_skipped zeroCaps ⟨some 1, none, none, none, 5⟩
     { netin := some 99 } 5 (by norm_num)⟩

/-- Claim C9 counterexample: the tracker's trigger bound is not the entity's
configured threshold.  With the stored threshold field set to 50, a value of
60 (strictly above the configured threshold) fires nothing, and with the
stored threshold field set to 200, a value of 95 (below the configured
threshold) does fire: the comparison is against the hard-coded 90. -/
theorem C9_counterexample :
    (60:ℚ) > 50 ∧ (cpuStep ⟨false, 50⟩ 60).2 = false ∧
    ¬ ((95:ℚ) > 200) ∧ (cpuStep ⟨false, 200⟩ 95).2 = true := by decide

/-- Claim C9 (amended): the tracker's trigger bounds are the hard-coded
constants 90 (CPU), 90 (memory), 10 (network) and 50 (disk I/O) — equal to the
defaults — independent of the stored threshold field or any setting; the
per-flow-card thresholds only filter trigger deliveries through the run
listeners (`value > args.threshold`). -/
theorem C9_bounds_hardcoded (s : TrackState) (v a t nIn nOut dR dW : ℚ) :
    ((cpuStep s v).2 = (decide (v > 90) && !s.above)) ∧
    ((memoryStep s v).2 = (decide (v > 90) && !s.above)) ∧
    ((networkStep s v).2 = (decide (v > 10) && !s.above)) ∧
    ((diskIOStep s v).2 = (decide (v > 50) && !s.above)) ∧
    (cpuAboveThresholdRunListener t a = decide (a > t)) ∧
    (memoryAboveThresholdRunListener t a = decide (a > t)) ∧
    (highNetworkTrafficRunListener t nIn nOut = decide (nIn + nOut > t)) ∧
    (highDiskActivityRunListener t dR dW = decide (dR + dW > t)) := by
  refine ⟨?_, ?_, ?_, ?_, rfl, rfl, rfl, rfl⟩
  · rw [cpuStep_eq_hysteresis]
    exact hysteresisStep_snd 90 85 (by norm_num) s v
  · rw [memoryStep_eq_hysteresis]
    exact hysteresisStep_snd 90 85 (by norm_num) s v
  · rw [networkStep_eq_hysteresis]
    exact hysteresisStep_snd 10 8 (by norm_num) s v
  · rw [diskIOStep_eq_hysteresis]
    exact hysteresisStep_snd 50 40 (by norm_num) s v

theorem flow_events_shape (prev : Option Bool) (tr : Tracking) (caps : Caps)
    (r : Bool) (cp mp : ℚ) :
    (checkAndTriggerFlowCards prev tr caps r cp mp).2.2
      = runStateEvents prev r
        ++ (if (cpuStep tr.cpu cp).2 then [Event.cpuAbove] else [])
        ++ (if (memoryStep tr.memory mp).2 then [Event.memoryAbove] else [])
        ++ (if (networkStep tr.network
              (caps.measureNetworkIn + caps.measureNetworkOut)).2
            then [Event.networkAbove] else [])
        ++ (if (diskIOStep tr.diskIOState
              (caps.measureDiskRead + caps.measureDiskWrite)).2
            then [Event.diskIOAbove] else []) := rfl

theorem diskSpaceLow_notin_combined (prev : Option Bool)
    (r e1 e2 e3 e4 : Bool) :
    Event.diskSpaceLow ∉
      (runStateEvents prev r ++ (if e1 then [Event.cpuAbove] else [])
        ++ (if e2 then [Event.memoryAbove] else [])
        ++ (if e3 then [Event.networkAbove] else [])
        ++ (if e4 then [Event.diskIOAbove] else [])) := by
  revert prev r e1 e2 e3 e4
  decide

theorem diskSpaceLow_notin_flow (prev : Option Bool) (tr : Tracking)
    (caps : Caps) (r : Bool) (cp mp : ℚ) :
    Event.diskSpaceLow ∉ (checkAndTriggerFlowCards prev tr caps r cp mp).2.2 := by
  rw [flow_events_shape]
  exact diskSpaceLow_notin_combined prev r _ _ _ _

theorem filter_run_events (prev : Option Bool) (r e1 e2 e3 e4 : Bool) :
    (runStateEvents prev r ++ (if e1 then [Event.cpuAbove] else [])
        ++ (if e2 then [Event.memoryAbove] else [])
        ++ (if e3 then [Event.networkAbove] else [])
        ++ (if e4 then [Event.diskIOAbove] else [])).filter isRunEvent
      = runStateEvents prev r := by
  revert prev r e1 e2 e3 e4
  decide

/-- Claim C7: the run-state edge detector fires nothing on the very first
poll (stored previous state still `null`); on later polls it fires exactly
one started event on a false→true edge, exactly one stopped event on a
true→false edge, and nothing when unchanged; and the stored previous state is
then set to the current value.  The started/stopped events of a full
`checkAndTriggerFlowCards` call are exactly those of the edge detector. -/
theorem C7_run_state_edge (prev : Option Bool) (p r : Bool) (tr : Tracking)
    (caps : Caps) (cp mp : ℚ) :
    runStateEvents none r = [] ∧
    (runStateEvents (some p) r
      = if p = r then [] else if r then [Event.started] else [Event.stopped]) ∧
    ((checkAndTriggerFlowCards prev tr caps r cp mp).2.2.filter isRunEvent
      = runStateEvents prev r) ∧
    (checkAndTriggerFlowCards prev tr caps r cp mp).1 = some r := by
  refine ⟨rfl, ?_, ?_, rfl⟩
  · cases p <;> cases r <;> rfl
  · rw [flow_events_shape]
    exact filter_run_events prev r _ _ _ _

/-- Claim C5: when the status fetch raises, the catch block of `updateStatus`
sets the generic-error and connectivity alarms to true, emits the
device-unreachable event, and leaves every metric capability and the stored
previous counters (and the tracking state) unchanged. -/
theorem C5_fetch_failure (kind : DeviceKind) (now : ℚ) (st : DeviceState) :
    updateStatus kind (Except.error ()) now st
      = ({ st with caps :=
            { st.caps with alarmGeneric := true, alarmConnectivity := true } },
         [Event.deviceUnreachable]) ∧
    (updateStatus kind (Except.error ()) now st).1.caps.measureCpu
      = st.caps.measureCpu ∧
    (updateStatus kind (Except.error ()) now st).1.caps.measureMemory
      = st.caps.measureMemory ∧
    (updateStatus kind (Except.error ()) now st).1.caps.measureDisk
      = st.caps.measureDisk ∧
    (updateStatus kind (Except.error ()) now st).1.caps.sensorUptime
      = st.caps.sensorUptime ∧
    (updateStatus kind (Except.error ()) now st).1.caps.measureNetworkIn
      = st.caps.measureNetworkIn ∧
    (updateStatus kind (Except.error ()) now st).1.caps.measureNetworkOut
      = st.caps.measureNetworkOut ∧
    (updateStatus kind (Except.error ()) now st).1.caps.measureDiskRead
      = st.caps.measureDiskRead ∧
    (updateStatus kind (Except.error ()) now st).1.caps.measureDiskWrite
      = st.caps.measureDiskWrite ∧
    (updateStatus kind (Except.error ()) now st).1.counters = st.counters ∧
    (updateStatus kind (Except.error ()) now st).1.caps.alarmGeneric = true ∧
    (updateStatus kind (Except.error ()) now st).1.caps.alarmConnectivity = true ∧
    (updateStatus kind (Except.error ()) now st).2 = [Event.deviceUnreachable] :=
  ⟨rfl, rfl, rfl, rfl, rfl, rfl, rfl, rfl, rfl, rfl, rfl, rfl, rfl⟩

theorem diskSpaceLow_notin_update (kind : DeviceKind)
    (fetch : Except Unit Status) (now : ℚ) (st : DeviceState) :
    Event.diskSpaceLow ∉ (updateStatus kind fetch now st).2 := by
  cases fetch with
  | error e =>
    simp [updateStatus]
  | ok status =>
    cases kind
    case node =>
      show Event.diskSpaceLow ∉ (updateStatusNodeOk status now st).2
      simp only [updateStatusNodeOk]
      split
      · exact diskSpaceLow_notin_flow _ _ _ _ _ _
      · exact diskSpaceLow_notin_flow _ _ _ _ _ _
    case lxc =>
      show Event.diskSpaceLow ∉ (updateStatusVMOk status now st).2
      simp only [updateStatusVMOk]
      split
      · exact diskSpaceLow_notin_flow _ _ _ _ _ _
      · exact diskSpaceLow_notin_flow _ _ _ _ _ _
    case vm =>
      show Event.diskSpaceLow ∉ (updateStatusVMOk status now st).2
      simp only [updateStatusVMOk]
      split
      · exact diskSpaceLow_notin_flow _ _ _ _ _ _
      · exact diskSpaceLow_notin_flow _ _ _ _ _ _

theorem diskSpaceLow_notin_runPolls (kind : DeviceKind) (st : DeviceState)
    (polls : List (Except Unit Status × ℚ)) :
    Event.diskSpaceLow ∉ (runPolls kind st polls).2 := by
  induction polls generalizing st with
  | nil => simp [runPolls]
  | cons p rest ih =>
    simp only [runPolls, List.mem_append]
    rintro (h | h)
    · exact diskSpaceLow_notin_update kind p.1 p.2 st h
    · exact ih _ h

/-- Claim C3 counterexample: over the poll sequence whose free-space percents
are [30, 18, 22, 26] (running VM, 100-unit disk), the monitor does not fire a
disk-space-low event exactly once at 18 — it fires none at all: no disk
free-space tracking exists in the poll cycle. -/
theorem C3_counterexample :
    ¬ ((runPolls DeviceKind.vm (initDevice 0) freeSpacePolls).2.count
        Event.diskSpaceLow = 1) := by
  rw [List.count_eq_zero.2
    (diskSpaceLow_notin_runPolls DeviceKind.vm (initDevice 0) freeSpacePolls)]
  exact Nat.zero_ne_one

/-- Claim C3 (amended): driver.js registers a disk-space-low trigger card
whose run listener passes when free space is below the card's threshold, but
no poll cycle ever emits a disk-space-low event: the device's flow-card check
tracks only CPU, memory, network and disk-I/O thresholds, so the internal low
state and its 20/25 bounds do not exist. -/
theorem C3_no_disk_space_event (kind : DeviceKind) (fetch : Except Unit Status)
    (now : ℚ) (st : DeviceState) (t df : ℚ) :
    Event.diskSpaceLow ∉ (updateStatus kind fetch now st).2 ∧
    diskSpaceLowRunListener t df = decide (df < t) :=
  ⟨diskSpaceLow_notin_update kind fetch now st, rfl⟩

theorem vm_stopped_behavior (status : Status) (now : ℚ) (st : DeviceState)
    (hvm : status.statusField ≠ some "running") :
    (updateStatus DeviceKind.vm (Except.ok status) now st).1.caps
      = { st.caps with
          onoff := false,
          measureCpu := 0, measureMemory := 0, measureDisk := 0, sensorUptime := 0,
          measureNetworkIn := 0, measureNetworkOut := 0,
          measureDiskRead := 0, measureDiskWrite := 0,
          alarmHeat := false, alarmConnectivity := true } ∧
    (updateStatus DeviceKind.vm (Except.ok status) now st).1.counters
      = st.counters ∧
    updateStatus DeviceKind.lxc (Except.ok status) now st
      = updateStatus DeviceKind.vm (Except.ok status) now st := by
  have hr : decide (status.statusField = some "running") = false :=
    decide_eq_false hvm
  have h90 : decide ((0:ℚ) > 90) = false := by decide
  refine ⟨?_, ?_, rfl⟩ <;>
    simp [updateStatus, updateStatusVMOk, hr, updateAlarms, h90]

theorem node_offline_behavior (status : Status) (now : ℚ) (st : DeviceState)
    (hnode : ∀ u, status.uptime = some u → u ≤ 0) :
    (updateStatus DeviceKind.node (Except.ok status) now st).1.caps
      = { st.caps with
          onoff := false,
          measureNetworkIn := 0, measureNetworkOut := 0,
          measureDiskRead := 0, measureDiskWrite := 0,
          alarmHeat := false, alarmConnectivity := true } ∧
    (updateStatus DeviceKind.node (Except.ok status) now st).1.counters
      = st.counters := by
  have h90 : decide ((0:ℚ) > 90) = false := by decide
  have hOn : (match status.uptime with
      | some u => decide (u > 0)
      | none => false) = false := by
    cases hu : status.uptime with
    | none => rfl
    | some u => simp [decide_eq_false (not_lt.2 (hnode u hu))]
  constructor <;>
    simp [updateStatus, updateStatusNodeOk, hOn, updateAlarms, h90]

/-- Claim C4 counterexample: on a poll where a node is offline (uptime 0),
the CPU capability is not set to 0 — it keeps its prior value (55 here),
contradicting the claim that all usage metrics are zeroed for every
offline/stopped entity. -/
theorem C4_counterexample :
    (updateStatus DeviceKind.node (Except.ok nodeOfflineStatus) 1000
        staleState).1.caps.measureCpu = 55 ∧
    (55:ℚ) ≠ 0 := by
  have h := node_offline_behavior nodeOfflineStatus 1000 staleState
    (fun u hu => by
      have h2 : (0:ℚ) = u := Option.some.inj hu
      rw [← h2])
  refine ⟨?_, by norm_num⟩
  rw [h.1]
  rfl

/-- Claim C4 (amended): on a poll cycle where a VM/container is not running,
all of CPU, memory, disk, uptime and the four I/O rate capabilities are set
to 0 and the stored counters are untouched (no rate computation); on a poll
cycle where a node is offline (uptime not positive) only the four I/O rate
capabilities are set to 0 — CPU, memory, disk and uptime keep their prior
values — and the stored counters are likewise untouched. -/
theorem C4_offline_zeroing (statusV statusN : Status) (now : ℚ)
    (stV stN : DeviceState)
    (hvm : statusV.statusField ≠ some "running")
    (hnode : ∀ u, statusN.uptime = some u → u ≤ 0) :
    ((updateStatus DeviceKind.vm (Except.ok statusV) now stV).1.caps
      = { stV.caps with
          onoff := false,
          measureCpu := 0, measureMemory := 0, measureDisk := 0, sensorUptime := 0,
          measureNetworkIn := 0, measureNetworkOut := 0,
          measureDiskRead := 0, measureDiskWrite := 0,
          alarmHeat := false, alarmConnectivity := true } ∧
     (updateStatus DeviceKind.vm (Except.ok statusV) now stV).1.counters
      = stV.counters ∧
     updateStatus DeviceKind.lxc (Except.ok statusV) now stV
      = updateStatus DeviceKind.vm (Except.ok statusV) now stV) ∧
    ((updateStatus DeviceKind.node (Except.ok statusN) now stN).1.caps
      = { stN.caps with
          onoff := false,
          measureNetworkIn := 0, measureNetworkOut := 0,
          measureDiskRead := 0, measureDiskWrite := 0,
          alarmHeat := false, alarmConnectivity := true } ∧
     (updateStatus DeviceKind.node (Except.ok statusN) now stN).1.counters
      = stN.counters) :=
  ⟨vm_stopped_behavior statusV now stV hvm,
   node_offline_behavior statusN now stN hnode⟩

theorem C4_offline_zeroing_witness :
    (updateStatus DeviceKind.vm (Except.ok vmStoppedStatus) 1000
        staleState).1.caps.measureCpu = 0 ∧
    (updateStatus DeviceKind.node (Except.ok nodeOfflineStatus) 1000
        staleState).1.caps.measureCpu = staleState.caps.measureCpu := by
  have h := C4_offline_zeroing vmStoppedStatus nodeOfflineStatus 1000
    staleState staleState (by decide)
    (fun u hu => by
      have h2 : (0:ℚ) = u := Option.some.inj hu
      rw [← h2])
  exact ⟨by rw [h.1.1], by rw [h.2.1]⟩

/-- Claim C6: on a failed VM/container restart, a cluster-wide search for the
entity's vmid runs; the restart is retried exactly once and only when the
search returns a node different from the recorded one (after updating the
recorded node); if the search returns the same node or nothing, the original
error is re-raised with no second attempt; and a node whose listing fails
during the search is skipped and the search continues. -/
theorem C6_restart_migration (entityType recordedNode : String) (vmid : Nat)
    (restart : String → Except String Unit)
    (nodesFetch : Except String (List ClusterNode)) :
    (∀ e n, restart recordedNode = Except.error e →
      findVMNode vmid entityType nodesFetch = some n → n ≠ recordedNode →
      restartAction entityType recordedNode vmid restart nodesFetch
        = ⟨restart n, [recordedNode, n], n⟩) ∧
    (∀ e, restart recordedNode = Except.error e →
      findVMNode vmid entityType nodesFetch = some recordedNode →
      restartAction entityType recordedNode vmid restart nodesFetch
        = ⟨Except.error e, [recordedNode], recordedNode⟩) ∧
    (∀ e, restart recordedNode = Except.error e →
      findVMNode vmid entityType nodesFetch = none →
      restartAction entityType recordedNode vmid restart nodesFetch
        = ⟨Except.error e, [recordedNode], recordedNode⟩) ∧
    (∀ nm lerr rest, findVMNodeList vmid entityType
        (⟨nm, Except.error lerr, Except.error lerr⟩ :: rest)
        = findVMNodeList vmid entityType rest) := by
  refine ⟨?_, ?_, ?_, ?_⟩
  · intro e n he hf hne
    simp [restartAction, he, hf, hne]
  · intro e he hf
    simp [restartAction, he, hf]
  · intro e he hf
    simp [restartAction, he, hf]
  · intro nm lerr rest
    simp only [findVMNodeList]
    split_ifs <;> rfl

theorem C6_restart_migration_witness :
    pveRestart "pve1" = Except.error "connection refused" ∧
    findVMNode 100 "vm" (Except.ok pveClusterMigrated) = some "pve2" ∧
    restartAction "vm" "pve1" 100 pveRestart (Except.ok pveClusterMigrated)
      = ⟨Except.ok (), ["pve1", "pve2"], "pve2"⟩ ∧
    findVMNode 100 "vm" (Except.ok pveClusterSame) = some "pve1" ∧
    restartAction "vm" "pve1" 100 pveRestart (Except.ok pveClusterSame)
      = ⟨Except.error "connection refused", ["pve1"], "pve1"⟩ := by
  refine ⟨rfl, rfl, ?_, rfl, ?_⟩
  · exact (C6_restart_migration "vm" "pve1" 100 pveRestart
      (Except.ok pveClusterMigrated)).1 "connection refused" "pve2" rfl rfl
      (by decide)
  · exact (C6_restart_migration "vm" "pve1" 100 pveRestart
      (Except.ok pveClusterSame)).2.1 "connection refused" rfl rfl

theorem updateIOMetrics_measureCpu (caps : Caps) (counters : Counters)
    (status : Status) (now : ℚ) :
    (updateIOMetrics caps counters status now).1.measureCpu
      = caps.measureCpu := by
  simp only [updateIOMetrics]
  split
  · cases hn : status.netin <;> cases ho : status.netout <;>
      cases hr : status.diskread <;> cases hw : status.diskwrite <;>
      simp [hn, ho, hr, hw]
  · rfl

theorem updateIOMetrics_measureMemory (caps : Caps) (counters : Counters)
    (status : Status) (now : ℚ) :
    (updateIOMetrics caps counters status now).1.measureMemory
      = caps.measureMemory := by
  simp only [updateIOMetrics]
  split
  · cases hn : status.netin <;> cases ho : status.netout <;>
      cases hr : status.diskread <;> cases hw : status.diskwrite <;>
      simp [hn, ho, hr, hw]
  · rfl

theorem flow_tracking_shape (prev : Option Bool) (tr : Tracking) (caps : Caps)
    (r : Bool) (cp mp : ℚ) :
    (checkAndTriggerFlowCards prev tr caps r cp mp).2.1
      = ⟨(cpuStep tr.cpu cp).1, (memoryStep tr.memory mp).1,
         (networkStep tr.network
           (caps.measureNetworkIn + caps.measureNetworkOut)).1,
         (diskIOStep tr.diskIOState
           (caps.measureDiskRead + caps.measureDiskWrite)).1⟩ := rfl

/-- Claim C10 (implicit frame effect): on a poll where the VM/container is
running but the cpu field is absent and the mem field is absent, the displayed
CPU and memory capabilities keep their previous values, while the alarm and
threshold logic evaluate the metrics as 0 — so the overheating alarm is
cleared and both above-threshold flags reset even though the displayed values
are unchanged. -/
theorem C10_missing_metric_frame (status : Status) (now : ℚ) (st : DeviceState)
    (hrun : status.statusField = some "running")
    (hcpu : status.cpu = none) (hmem : status.mem = none) :
    (updateStatus DeviceKind.vm (Except.ok status) now st).1.caps.measureCpu
      = st.caps.measureCpu ∧
    (updateStatus DeviceKind.vm (Except.ok status) now st).1.caps.measureMemory
      = st.caps.measureMemory ∧
    (updateStatus DeviceKind.vm (Except.ok status) now st).1.caps.alarmHeat
      = false ∧
    (updateStatus DeviceKind.vm (Except.ok status) now st).1.tracking.cpu.above
      = false ∧
    (updateStatus DeviceKind.vm
      (Except.ok status) now st).1.tracking.memory.above = false := by
  have hr : decide (status.statusField = some "running") = true := by
    simp [hrun]
  have h85 : ((0:ℚ) ≤ 85) := by norm_num
  have h90 : ¬((0:ℚ) > 90) := by norm_num
  have hcs : ∀ s : TrackState, (cpuStep s 0).1.above = false := fun s => by
    rw [cpuStep_eq_hysteresis, hysteresisStep_above,
      if_neg (fun h => h90 h.1), if_pos h85]
  have hms : ∀ s : TrackState, (memoryStep s 0).1.above = false := fun s => by
    rw [memoryStep_eq_hysteresis, hysteresisStep_above,
      if_neg (fun h => h90 h.1), if_pos h85]
  have hd90 : decide ((0:ℚ) > 90) = false := by decide
  refine ⟨?_, ?_, ?_, ?_, ?_⟩ <;>
    cases hd : status.disk <;> cases hmx : status.maxdisk <;>
      cases hu : status.uptime <;>
      simp [updateStatus, updateStatusVMOk, hr, hcpu, hmem, hd, hmx, hu,
        updateAlarms, hd90, updateIOMetrics_measureCpu,
        updateIOMetrics_measureMemory, flow_tracking_shape, hcs, hms] <;>
      split_ifs <;>
      simp [updateIOMetrics_measureCpu, updateIOMetrics_measureMemory]

theorem C10_missing_metric_frame_witness :
    hotState.caps.measureCpu = 95 ∧
    hotState.caps.alarmHeat = true ∧
    hotState.tracking.cpu.above = true ∧
    (updateStatus DeviceKind.vm (Except.ok vmRunningNoMetrics) 1000
        hotState).1.caps.measureCpu = hotState.caps.measureCpu ∧
    (updateStatus DeviceKind.vm (Except.ok vmRunningNoMetrics) 1000
        hotState).1.caps.alarmHeat = false ∧
    (updateStatus DeviceKind.vm (Except.ok vmRunningNoMetrics) 1000
        hotState).1.tracking.cpu.above = false := by
  have h := C10_missing_metric_frame vmRunningNoMetrics 1000 hotState rfl rfl rfl
  exact ⟨rfl, rfl, rfl, h.1, h.2.2.1, h.2.2.2.1⟩

end HomeyProxmox
